import Mathlib

/-!
Shallow embedding of `src/androidtv/androidtv.py` (class `AndroidTV`): the
snapshot decoder `get_properties` (lines 199-284), the audio-block extraction
it inlines, the state resolution performed by `update` (lines 92-119), and the
static-property extraction `get_device_properties` (lines 126-147).

Modelling conventions:
* a Python string is a `List Char`;
* Python `None` is `none`; every optional field is an `Option`;
* a normally-returning call is `Except.ok`, a raised `IndexError`/`ValueError`
  is `Except.error`;
* Python float arithmetic is modelled exactly over `ℚ`, with `round(x, 2)` as
  round-half-even at two decimals (the only rounding the code performs is of
  `raw / 15` for an integer `raw`, which never produces a representation-
  boundary tie);
* the ASCII fragment of the Python character classes (whitespace, `\w`, `\d`,
  line breaks) is modelled; all inputs exercised by the development are ASCII.
-/

/-- Whitespace characters stripped by Python `str.strip()` (ASCII fragment). -/
def pyIsSpace (c : Char) : Bool :=
  c == ' ' || c == '\t' || c == '\n' || c == '\r' || c == '\x0b' || c == '\x0c'

/-- Python `str.strip()`: remove leading and trailing whitespace. -/
def pyStrip (s : List Char) : List Char :=
  ((s.dropWhile pyIsSpace).reverse.dropWhile pyIsSpace).reverse

/-- Line-break characters recognized by Python `str.splitlines()` (ASCII fragment). -/
def isLineBreak (c : Char) : Bool :=
  c == '\n' || c == '\r' || c == '\x0b' || c == '\x0c' || c == '\x1c' ||
    c == '\x1d' || c == '\x1e'

/-- Worker for `pySplitlines`; `acc` holds the current line, reversed.  A final
empty segment (input ending in a line break) is not emitted, as in Python. -/
def splitlinesGo : List Char → List Char → List (List Char)
  | [], [] => []
  | [], acc => [acc.reverse]
  | '\r' :: '\n' :: rest, acc => acc.reverse :: splitlinesGo rest []
  | c :: rest, acc =>
    if isLineBreak c then acc.reverse :: splitlinesGo rest []
    else splitlinesGo rest (c :: acc)

/-- Python `str.splitlines()`. -/
def pySplitlines (s : List Char) : List (List Char) := splitlinesGo s []

/-- Worker for `pySplitOn`. -/
def splitOnGo (sep : Char) : List Char → List Char → List (List Char)
  | [], acc => [acc.reverse]
  | c :: rest, acc =>
    if c == sep then acc.reverse :: splitOnGo sep rest []
    else splitOnGo sep rest (c :: acc)

/-- Python `str.split(sep)` for a one-character separator. -/
def pySplitOn (sep : Char) (s : List Char) : List (List Char) := splitOnGo sep s []

/-- Decimal digits to a natural number. -/
def digitsToNat (ds : List Char) : Nat :=
  ds.foldl (fun n c => n * 10 + (c.toNat - '0'.toNat)) 0

/-- Python `int(s)` on a string: surrounding whitespace is ignored, then an
optional sign followed by at least one digit; anything else raises
`ValueError`, modelled as `none`. -/
def pyInt (s : List Char) : Option Int :=
  match pyStrip s with
  | '-' :: ds =>
    if !ds.isEmpty && ds.all Char.isDigit then some (-(digitsToNat ds : Int)) else none
  | '+' :: ds =>
    if !ds.isEmpty && ds.all Char.isDigit then some ((digitsToNat ds : Int)) else none
  | ds =>
    if !ds.isEmpty && ds.all Char.isDigit then some ((digitsToNat ds : Int)) else none

/-- Suffix of `hay` after the first occurrence of `needle`; `none` when
`needle` does not occur. -/
def findAfter (needle : List Char) : List Char → Option (List Char)
  | [] => if needle.isPrefixOf [] then some [] else none
  | c :: t =>
    if needle.isPrefixOf (c :: t) then some ((c :: t).drop needle.length)
    else findAfter needle t

/-- Python `needle in hay` (substring containment). -/
def containsSub (needle hay : List Char) : Bool := (findAfter needle hay).isSome

/-- Content of `hay` strictly before the first occurrence of `needle`;
`none` when `needle` does not occur. -/
def takeUntilSub (needle : List Char) : List Char → Option (List Char)
  | [] => if needle.isPrefixOf [] then some [] else none
  | c :: t =>
    if needle.isPrefixOf (c :: t) then some []
    else (takeUntilSub needle t).map (c :: ·)

/-- First match of `re.findall("STREAM_MUSIC(.*?)- STREAM", audio, DOTALL)`
(`BLOCK_REGEX_PATTERN`, line 15): the text between the first `STREAM_MUSIC`
and the next `- STREAM` after it.  Leftmost-match equivalence: if the first
`STREAM_MUSIC` has no `- STREAM` anywhere after it, no later one has either,
so the regex has no match at all. -/
def extractBlock (audio : List Char) : Option (List Char) :=
  (findAfter "STREAM_MUSIC".data audio).bind (takeUntilSub "- STREAM".data)

/-- Regex `\w` (ASCII fragment): letters, digits, underscore. -/
def isWordChar (c : Char) : Bool := c.isAlphanum || c == '_'

/-- Characters before the first non-word character; `none` when every
character (to the end of the input) is a word character. -/
def takeUntilNonWord : List Char → Option (List Char)
  | [] => none
  | c :: t =>
    if isWordChar c then (takeUntilNonWord t).map (c :: ·)
    else some []

/-- First match of `re.findall(marker + "(.*?)\W", block, DOTALL)` for the
markers `"Devices: "` (`DEVICE_REGEX_PATTERN`, line 16) and `"Muted: "`
(`MUTED_REGEX_PATTERN`, line 17): the lazily captured text after the first
occurrence of the marker, up to the first non-word character.  Leftmost-match
equivalence: if no non-word character follows the first marker occurrence,
then everything after it is word characters, so no later marker occurrence
exists (the marker itself contains the non-word characters `:` and a space),
and the regex has no match at all. -/
def captureToNonWord (marker block : List Char) : Option (List Char) :=
  (findAfter marker block).bind takeUntilNonWord

/-- One attempted match of `device + "\): (\d{1,})"` at the head of `s`:
the literal pattern followed by at least one digit; the capture is the
maximal digit run (greedy `\d{1,}`). -/
def volDigitsAt (pat s : List Char) : Option (List Char) :=
  if pat.isPrefixOf s then
    let ds := (s.drop pat.length).takeWhile Char.isDigit
    if ds.isEmpty then none else some ds
  else none

/-- First match of `re.findall(device + "\): (\d{1,})", block, DOTALL)`
(`VOLUME_REGEX_PATTERN`, line 18; the extracted `device` consists of word
characters only, so it is a regex literal): positions are tried left to
right, and a position where the literal matches but no digit follows is
skipped, exactly as the regex engine does. -/
def findVolume (pat : List Char) : List Char → Option (List Char)
  | [] => volDigitsAt pat []
  | c :: t =>
    match volDigitsAt pat (c :: t) with
    | some ds => some ds
    | none => findVolume pat t

/-- Round-half-even of the fraction `n / d` (for `d > 0`) to an integer,
Python `round`'s tie-breaking, in pure integer arithmetic: with
`f := ⌊n / d⌋` and remainder `r := n - f * d` (so `0 ≤ r < d`), the
fractional part is below, above, or at one half according as `2 * r`
compares with `d`. -/
def rheFrac (n d : ℤ) : ℤ :=
  let f := Int.fdiv n d
  let r := n - f * d
  if 2 * r < d then f
  else if d < 2 * r then f + 1
  else if f % 2 = 0 then f else f + 1

/-- Python `round(q, 2)` over exact rationals: round-half-even of `100 * q`
(the fraction `100 * q.num / q.den`), divided by 100. -/
def pyRound2 (q : ℚ) : ℚ := Rat.divInt (rheFrac (100 * q.num) (q.den : ℤ)) 100

/-- Lines 269 and 197: `round(1 / 15 * float(raw), 2)` over exact rationals
(`1 / 15 * raw` is the rational `raw / 15`). -/
def scaleVolume (raw : Nat) : ℚ := pyRound2 (Rat.divInt (raw : ℤ) 15)

/-- The audio states assigned by `get_properties` (`constants.STATE_PLAYING`,
`STATE_PAUSED`, `STATE_IDLE`). -/
inductive AudioState
  | playing
  | paused
  | idle
deriving DecidableEq, Repr

/-- The semantic device states returned by `update` (`constants.STATE_OFF`,
`STATE_IDLE`, `STATE_PLAYING`, `STATE_PAUSED`). -/
inductive TVState
  | off
  | idle
  | playing
  | paused
deriving DecidableEq, Repr

/-- The `current_app` dictionary built on line 236. -/
structure CurrentApp where
  package : List Char
  activity : List Char
deriving DecidableEq, Repr

/-- The 8-tuple returned by `get_properties`; `Option` models fields that can
be Python `None`.  `wake_lock_size` carries the `-1` sentinel distinctly from
`none`. -/
structure Props where
  screen_on : Option Bool
  awake : Option Bool
  wake_lock_size : Option Int
  current_app : Option CurrentApp
  audio_state : Option AudioState
  device : Option (List Char)
  muted : Option Bool
  volume : Option ℚ
deriving DecidableEq, Repr

/-- The exceptions the decoded code can raise. -/
inductive PyError
  | indexError
  | valueError
deriving DecidableEq, Repr

/-- Modelled from the spec: `constants.REGEX_WINDOW` (the file `constants.py`
is not among the sources) — "a window-descriptor pattern to line 2 capturing
named `package` and `activity` groups".  Per the spec's end-to-end scenario
the line `Package1/Activity1` yields `package = Package1` and
`activity = Activity1`; a line without the separator yields no match. -/
def regexWindowMatch (line : List Char) : Option CurrentApp :=
  match takeUntilSub "/".data line, findAfter "/".data line with
  | some pkg, some act =>
    if pkg.isEmpty || act.isEmpty then none else some ⟨pkg, act⟩
  | _, _ => none

/-- The audio-stage result: `audio_state` (always computed at this stage)
plus the three optional stream-block fields. -/
structure AudioProps where
  audio_state : AudioState
  device : Option (List Char)
  muted : Option Bool
  volume : Option ℚ
deriving DecidableEq, Repr

/-- Lines 261-283 of `get_properties`: extraction of `device`, `volume` and
`muted` from the stream block, as `(device, muted, volume)`. -/
def streamFields (stream_block : List Char) : Option (List Char) × Option Bool × Option ℚ :=
  let dv : Option (List Char) × Option ℚ :=
    match captureToNonWord "Devices: ".data stream_block with
    | some device =>
      (some device,
        (findVolume (device ++ "): ".data) stream_block).map
          (fun ds => scaleVolume (digitsToNat ds)))
    | none => (none, none)
  let muted : Option Bool :=
    (captureToNonWord "Muted: ".data stream_block).map (fun t => t == "true".data)
  (dv.1, muted, dv.2)

/-- Lines 246-283 of `get_properties`: the `started`/`paused` substring scan
for `audio_state`, then the stream-block extraction. -/
def decodeAudio (audio_output : List Char) : AudioProps :=
  let audio_state :=
    if containsSub "started".data audio_output then AudioState.playing
    else if containsSub "paused".data audio_output then AudioState.paused
    else AudioState.idle
  match extractBlock audio_output with
  | none => ⟨audio_state, none, none, none⟩
  | some stream_block =>
    let f := streamFields stream_block
    ⟨audio_state, f.1, f.2.1, f.2.2⟩

/-- Python `"\n".join(lines)` (line 246). -/
def joinNL : List (List Char) → List Char
  | [] => []
  | [l] => l
  | l :: ls => l ++ '\n' :: joinNL ls

/-- The all-unset snapshot returned when the shell output is absent. -/
def allNone : Props := ⟨none, none, none, none, none, none, none, none⟩

/-- Lines 229-284 of `get_properties`, from the `current_app` stage on:
`lines12` is `lines[1:]`, so `lines[1]` is its head and `lines[2:]` its tail.
Fewer than 2 lines stop with `current_app` unset; a non-matching window line
degrades `current_app` (only) to unset; fewer than 3 lines stop with the
audio fields unset; otherwise `"\n".join(lines[2:])` is decoded as the audio
dump. -/
def gpApp (screen_on awake : Bool) (wake_lock_size : Int) :
    List (List Char) → Except PyError Props
  | [] =>
    Except.ok ⟨some screen_on, some awake, some wake_lock_size,
      none, none, none, none, none⟩
  | l1 :: lrest2 =>
    let current_app := regexWindowMatch l1
    if lrest2.isEmpty then
      Except.ok ⟨some screen_on, some awake, some wake_lock_size,
        current_app, none, none, none, none⟩
    else
      let a := decodeAudio (joinNL lrest2)
      Except.ok ⟨some screen_on, some awake, some wake_lock_size,
        current_app, some a.audio_state, a.device, a.muted, a.volume⟩

/-- Lines 221-284 of `get_properties`, from `lines = output.strip().splitlines()`
on.  The three Python raise sites are the `Except.error` results: `IndexError`
from `lines[0]` when the stripped output has no lines, `IndexError` from
`lines[0].split("=")[1]` when the first line contains no `=`, and `ValueError`
from `int(...)` when the text after the first `=` is not an integer literal. -/
def gpTail (screen_on awake : Bool) : List (List Char) → Except PyError Props
  | [] => Except.error PyError.indexError
  | l0 :: lrest =>
    if l0.length < 3 then
      Except.ok ⟨some screen_on, some awake, some (-1), none, none, none, none, none⟩
    else
      match (pySplitOn '=' l0).get? 1 with
      | none => Except.error PyError.indexError
      | some seg =>
        match pyInt seg with
        | none => Except.error PyError.valueError
        | some wake_lock_size => gpApp screen_on awake wake_lock_size lrest

/-- Lines 199-284, `get_properties`: the snapshot decoder, as a function of
the composite shell output (`none` models an unsuccessful ADB command;
`adb_shell` returning a string is `some`).  `output[0] == '1'` is `screen_on`,
`output[1] == '1'` is `awake`; an absent output gives all fields unset, an
empty one `(False, False, -1, None, ...)`, a one-character one
`(screen_on, False, -1, None, ...)`; otherwise decoding continues on
`output.strip().splitlines()` in `gpTail`. -/
def get_properties : Option (List Char) → Except PyError Props
  | none => Except.ok allNone
  | some [] => Except.ok ⟨some false, some false, some (-1), none, none, none, none, none⟩
  | some [c0] =>
    Except.ok ⟨some (c0 == '1'), some false, some (-1), none, none, none, none, none⟩
  | some (c0 :: c1 :: rest) =>
    gpTail (c0 == '1') (c1 == '1') (pySplitlines (pyStrip (c0 :: c1 :: rest)))

/-- Pass-through of an audio state as a device state. -/
def AudioState.toTV : AudioState → TVState
  | .playing => TVState.playing
  | .paused => TVState.paused
  | .idle => TVState.idle

/-- Lines 92-119, the state resolution of `update` over the decoded fields.
Python truthiness: `if not screen_on` is taken unless `screen_on` is `True`
(`None` and `False` are both falsy); `if audio_state` is taken whenever
`audio_state` is set, because the state constants are (Modelled from the
spec, `constants.py` being absent from the sources) a closed enumeration of
non-empty tokens, every one of which is truthy — so a set `audio_state` is
passed through directly, Idle included. -/
def updateState (screen_on awake : Option Bool) (wake_lock_size : Option Int)
    (audio_state : Option AudioState) : TVState :=
  if screen_on ≠ some true then TVState.off
  else
    match audio_state with
    | some a => a.toTV
    | none =>
      if awake ≠ some true then TVState.idle
      else if wake_lock_size = some 1 then TVState.playing
      else TVState.paused

/-- Regex character-pattern prefix match for the key part of the property
patterns (line 20-26): `.` matches any character except a newline (no DOTALL
here), every other pattern character matches itself. -/
def patPrefixOf : List Char → List Char → Bool
  | [], _ => true
  | _ :: _, [] => false
  | p :: ps, c :: cs => (if p == '.' then c != '\n' else p == c) && patPrefixOf ps cs

/-- Lazy `(.*?)]` without DOTALL: the capture up to the first `]`, failing at
a newline or the end of the input. -/
def scanClose : List Char → Option (List Char)
  | [] => none
  | c :: t =>
    if c == ']' then some []
    else if c == '\n' then none
    else (scanClose t).map (c :: ·)

/-- Lazy `.*?\[(.*?)]` without DOTALL, anchored after a key occurrence: find
the first `[` before the next newline and capture to the first `]` before a
newline.  If the capture fails at the first `[`, it fails at every later `[`
before the same newline as well (the close scan from an earlier `[` covers a
superset), and a `[` beyond the newline is unreachable by `.*?` — so no
backtracking over the choice of `[` is needed. -/
def bracketCapture : List Char → Option (List Char)
  | [] => none
  | c :: t =>
    if c == '[' then scanClose t
    else if c == '\n' then none
    else bracketCapture t

/-- First match of `re.findall(key + ".*?\[(.*?)]", text)` (the property
patterns of lines 20-26): key occurrences are tried left to right, each with
the bracket capture after it. -/
def propCapture (key : List Char) : List Char → Option (List Char)
  | [] => none
  | c :: t =>
    if patPrefixOf key (c :: t) then
      match bracketCapture ((c :: t).drop key.length) with
      | some v => some v
      | none => propCapture key t
    else propCapture key t

/-- Lazy `(.*?) brd` without DOTALL: the capture up to the first ` brd`,
failing at a newline or the end of the input. -/
def scanToBrd : List Char → Option (List Char)
  | [] => none
  | c :: t =>
    if " brd".data.isPrefixOf (c :: t) then some []
    else if c == '\n' then none
    else (scanToBrd t).map (c :: ·)

/-- First match of `re.findall("ether (.*?) brd", text)`
(`WIFIMAC_REGEX_PATTERN`, line 22). -/
def etherCapture : List Char → Option (List Char)
  | [] => none
  | c :: t =>
    if "ether ".data.isPrefixOf (c :: t) then
      match scanToBrd ((c :: t).drop 6) with
      | some v => some v
      | none => etherCapture t
    else etherCapture t

/-- The static property record built on lines 141-145. -/
structure DeviceProperties where
  wifimac : List Char
  serialno : List Char
  manufacturer : List Char
  model : List Char
  sw_version : List Char
deriving DecidableEq, Repr

/-- Python `re.findall(...)[0]`: `IndexError` when there is no match. -/
def first0 (x : Option (List Char)) : Except PyError (List Char) :=
  match x with
  | some v => Except.ok v
  | none => Except.error PyError.indexError

/-- Lines 126-147, `get_device_properties`, as a function of the two shell
dumps it reads (the `getprop` output and the `ip addr show wlan0` output —
the transport is modelled as those inputs). -/
def get_device_properties (properties wifi_out : List Char) :
    Except PyError DeviceProperties :=
  match first0 (if containsSub "wifimac".data properties
                then propCapture "wifimac".data properties
                else etherCapture wifi_out) with
  | Except.error e => Except.error e
  | Except.ok wifimac =>
    match first0 (propCapture "serialno".data properties) with
    | Except.error e => Except.error e
    | Except.ok serialno =>
      match first0 (propCapture "manufacturer".data properties) with
      | Except.error e => Except.error e
      | Except.ok manufacturer =>
        match first0 (propCapture "product.model".data properties) with
        | Except.error e => Except.error e
        | Except.ok model =>
          match first0 (propCapture "version.release".data properties) with
          | Except.error e => Except.error e
          | Except.ok version =>
            Except.ok ⟨wifimac, serialno, manufacturer, model, version⟩

/-- Success condition of the wake-lock parsing stage: the stripped output has
a first line, and that line is either shorter than 3 characters (early stop)
or yields an integer after its first `=`.  Outside this condition (and with
an output of at least 2 characters) lines 221-226 raise. -/
def wakeLockStageOk (o : List Char) : Prop :=
  match pySplitlines (pyStrip o) with
  | [] => False
  | l0 :: _ =>
    l0.length < 3 ∨ ∃ seg, (pySplitOn '=' l0).get? 1 = some seg ∧ (pyInt seg).isSome

/-- Sample composite output: screen on, awake, one wake lock, window line that
does not match the window pattern, audio dump containing `started`. -/
def sampleNoApp : List Char := "11w=1\nxx\nstarted".data

/-- Sample composite output: full decode with a stream block that has a
`Muted:` marker but no `Devices:` marker. -/
def sampleMutedOnly : List Char := "11w=1\nx/y\nSTREAM_MUSIC Muted: false - STREAM".data

/-- Sample composite output: full decode, device `SPEAKER`, raw volume 8,
muted true. -/
def sampleVol8 : List Char :=
  "11wake_lock_size=1\nPkg/Act\nSTREAM_MUSIC Devices: SPEAKER\nSPEAKER): 8\nMuted: true - STREAM".data

/-- The snapshot decoded from `sampleVol8`. -/
def propsVol8 : Props :=
  ⟨some true, some true, some 1, some ⟨"Pkg".data, "Act".data⟩,
    some AudioState.idle, some "SPEAKER".data, some true, some (Rat.divInt 53 100)⟩

/-- Sample composite output: device `A`, raw volume 15. -/
def sampleVol15 : List Char :=
  "11w=1\nx/y\nSTREAM_MUSICDevices: A)\nA): 15\nMuted: true - STREAM".data

/-- The snapshot decoded from `sampleVol15`. -/
def propsVol15 : Props :=
  ⟨some true, some true, some 1, some ⟨"x".data, "y".data⟩,
    some AudioState.idle, some "A".data, some true, some 1⟩

/-- Sample composite output: device `A`, raw volume 0. -/
def sampleVol0 : List Char :=
  "11w=1\nx/y\nSTREAM_MUSICDevices: A)\nA): 0\nMuted: true - STREAM".data

/-- Sample composite output: stream block with a device but no volume line
and no `Muted:` marker. -/
def sampleNoVol : List Char :=
  "11w=1\nx/y\nSTREAM_MUSIC Devices: SPEAKER\n- STREAM".data

/-- Sample composite output: audio dump `paused`, no stream block. -/
def samplePaused : List Char := "11w=1\nx/y\npaused".data

/-- Sample composite output: audio dump with neither `started` nor `paused`
nor a stream block; decodes to a set `audio_state` of Idle. -/
def sampleIdle : List Char := "11w=1\nx/y\nzz".data

/-- The snapshot decoded from `sampleIdle`. -/
def propsIdle : Props :=
  ⟨some true, some true, some 1, some ⟨"x".data, "y".data⟩,
    some AudioState.idle, none, none, none⟩

/-- Sample `getprop` dump with every key but `serialno`. -/
def sampleNoSerial : List Char :=
  "wifimac: [aa]\nmanufacturer: [m]\nproduct.model: [p]\nversion.release: [v]\n".data

theorem gpApp_ok (s a : Bool) (w : Int) (l : List (List Char)) :
    ∃ p, gpApp s a w l = Except.ok p := by
  cases l with
  | nil => exact ⟨_, rfl⟩
  | cons l1 lrest2 =>
    unfold gpApp
    by_cases h : lrest2.isEmpty <;> simp [h]

theorem streamFields_device_none (sb : List Char)
    (h : captureToNonWord "Devices: ".data sb = none) :
    (streamFields sb).1 = none ∧ (streamFields sb).2.2 = none := by
  unfold streamFields
  simp [h]

theorem streamFields_device_some (sb d : List Char)
    (h : captureToNonWord "Devices: ".data sb = some d) :
    (streamFields sb).1 = some d ∧
      (streamFields sb).2.2 =
        (findVolume (d ++ "): ".data) sb).map (fun ds => scaleVolume (digitsToNat ds)) := by
  unfold streamFields
  simp [h]

theorem streamFields_muted (sb : List Char) :
    (streamFields sb).2.1 =
      (captureToNonWord "Muted: ".data sb).map (fun t => t == "true".data) := by
  unfold streamFields
  cases h : captureToNonWord "Devices: ".data sb <;> simp [h]

theorem streamFields_vol_dev (sb : List Char)
    (h : (streamFields sb).2.2 ≠ none) : (streamFields sb).1 ≠ none := by
  cases hc : captureToNonWord "Devices: ".data sb with
  | none => exact absurd (streamFields_device_none sb hc).2 h
  | some d => simp [(streamFields_device_some sb d hc).1]

theorem decodeAudio_state (a : List Char) :
    (decodeAudio a).audio_state =
      (if containsSub "started".data a then AudioState.playing
       else if containsSub "paused".data a then AudioState.paused
       else AudioState.idle) := by
  unfold decodeAudio
  cases h : extractBlock a <;> simp [h]

theorem decodeAudio_noblock (a : List Char) (h : extractBlock a = none) :
    (decodeAudio a).device = none ∧ (decodeAudio a).muted = none ∧
      (decodeAudio a).volume = none := by
  unfold decodeAudio
  simp [h]

theorem decodeAudio_block (a sb : List Char) (h : extractBlock a = some sb) :
    (decodeAudio a).device = (streamFields sb).1 ∧
      (decodeAudio a).muted = (streamFields sb).2.1 ∧
      (decodeAudio a).volume = (streamFields sb).2.2 := by
  unfold decodeAudio
  simp [h]

theorem decodeAudio_vol_dev (a : List Char)
    (h : (decodeAudio a).volume ≠ none) : (decodeAudio a).device ≠ none := by
  cases hb : extractBlock a with
  | none => exact absurd (decodeAudio_noblock a hb).2.2 h
  | some sb =>
    obtain ⟨hd, _, hv⟩ := decodeAudio_block a sb hb
    rw [hv] at h
    rw [hd]
    exact streamFields_vol_dev sb h

theorem gpApp_shape (s a : Bool) (w : Int) (l : List (List Char)) (p : Props)
    (h : gpApp s a w l = Except.ok p) :
    p.screen_on = some s ∧ p.awake = some a ∧ p.wake_lock_size = some w ∧
      (p.device ≠ none → p.audio_state ≠ none) ∧
      (p.muted ≠ none → p.audio_state ≠ none) ∧
      (p.volume ≠ none → p.device ≠ none) := by
  cases l with
  | nil =>
    cases h
    simp
  | cons l1 lrest2 =>
    unfold gpApp at h
    by_cases he : lrest2.isEmpty
    · simp only [he, if_true] at h
      cases h
      simp
    · simp only [he, if_false] at h
      cases h
      refine ⟨rfl, rfl, rfl, ?_, ?_, ?_⟩
      · intro _; simp
      · intro _; simp
      · exact decodeAudio_vol_dev _

theorem gpTail_shape (s a : Bool) (l : List (List Char)) (p : Props)
    (h : gpTail s a l = Except.ok p) :
    p.screen_on = some s ∧ p.awake = some a ∧ p.wake_lock_size ≠ none ∧
      (p.device ≠ none → p.audio_state ≠ none) ∧
      (p.muted ≠ none → p.audio_state ≠ none) ∧
      (p.volume ≠ none → p.device ≠ none) := by
  cases l with
  | nil => cases h
  | cons l0 lrest =>
    unfold gpTail at h
    by_cases hl : l0.length < 3
    · simp only [hl, if_true] at h
      cases h
      simp
    · simp only [hl, if_false] at h
      cases hseg : (pySplitOn '=' l0).get? 1 with
      | none => rw [hseg] at h; cases h
      | some seg =>
        rw [hseg] at h
        dsimp only at h
        cases hint : pyInt seg with
        | none => rw [hint] at h; cases h
        | some w =>
          rw [hint] at h
          dsimp only at h
          obtain ⟨h1, h2, h3, h4⟩ := gpApp_shape s a w lrest p h
          exact ⟨h1, h2, by rw [h3]; simp, h4⟩

theorem gp_shape (o : List Char) (p : Props)
    (h : get_properties (some o) = Except.ok p) :
    p.screen_on ≠ none ∧ p.awake ≠ none ∧ p.wake_lock_size ≠ none ∧
      (p.device ≠ none → p.audio_state ≠ none) ∧
      (p.muted ≠ none → p.audio_state ≠ none) ∧
      (p.volume ≠ none → p.device ≠ none) := by
  match o with
  | [] => cases h; simp
  | [c0] => cases h; simp
  | c0 :: c1 :: rest =>
    have h2 : gpTail (c0 == '1') (c1 == '1')
        (pySplitlines (pyStrip (c0 :: c1 :: rest))) = Except.ok p := h
    obtain ⟨h1, hA, h3, h4⟩ := gpTail_shape _ _ _ _ h2
    exact ⟨by rw [h1]; simp, by rw [hA]; simp, h3, h4⟩

theorem findAfter_mono (n m : List Char) (hnm : n <+: m) :
    ∀ hay : List Char, (findAfter m hay).isSome → (findAfter n hay).isSome := by
  intro hay
  induction hay with
  | nil =>
    unfold findAfter
    by_cases hm : m.isPrefixOf ([] : List Char)
    · have hn : n.isPrefixOf ([] : List Char) := by
        rw [List.isPrefixOf_iff_prefix] at hm ⊢
        exact hnm.trans hm
      simp [hm, hn]
    · simp [hm]
  | cons c t ih =>
    unfold findAfter
    by_cases hn : n.isPrefixOf (c :: t)
    · simp [hn]
    · have hm : ¬ m.isPrefixOf (c :: t) := by
        intro hm
        rw [List.isPrefixOf_iff_prefix] at hm
        rw [List.isPrefixOf_iff_prefix] at hn
        exact hn (hnm.trans hm)
      simp only [hn, hm, if_false]
      exact ih

theorem captureToNonWord_contains (marker block t : List Char)
    (h : captureToNonWord marker block = some t) :
    containsSub marker block = true := by
  unfold captureToNonWord at h
  unfold containsSub
  cases hf : findAfter marker block with
  | none => rw [hf] at h; cases h
  | some r => simp

theorem muted_marker_absent (sb : List Char)
    (h : containsSub "Muted:".data sb = false) :
    (streamFields sb).2.1 = none := by
  rw [streamFields_muted]
  cases hc : captureToNonWord "Muted: ".data sb with
  | none => rfl
  | some t =>
    exfalso
    have hp : "Muted:".data <+: "Muted: ".data := by decide
    unfold captureToNonWord at hc
    cases hf : findAfter "Muted: ".data sb with
    | none => rw [hf] at hc; cases hc
    | some r =>
      have : (findAfter "Muted:".data sb).isSome :=
        findAfter_mono _ _ hp sb (by rw [hf]; rfl)
      unfold containsSub at h
      rw [h] at this
      cases this

theorem gdp_ok (props wifi : List Char) (r : DeviceProperties)
    (h : get_device_properties props wifi = Except.ok r) :
    propCapture "serialno".data props ≠ none ∧
      propCapture "manufacturer".data props ≠ none ∧
      propCapture "product.model".data props ≠ none ∧
      propCapture "version.release".data props ≠ none := by
  unfold get_device_properties at h
  cases h0 : first0 (if containsSub "wifimac".data props
      then propCapture "wifimac".data props
      else etherCapture wifi) with
  | error e => rw [h0] at h; exact Except.noConfusion h
  | ok v0 =>
    rw [h0] at h
    dsimp only at h
    cases h1 : propCapture "serialno".data props with
    | none => rw [h1] at h; dsimp only [first0] at h; exact Except.noConfusion h
    | some v1 =>
      rw [h1] at h
      dsimp only [first0] at h
      cases h2 : propCapture "manufacturer".data props with
      | none => rw [h2] at h; dsimp only [first0] at h; exact Except.noConfusion h
      | some v2 =>
        rw [h2] at h
        dsimp only [first0] at h
        cases h3 : propCapture "product.model".data props with
        | none => rw [h3] at h; dsimp only [first0] at h; exact Except.noConfusion h
        | some v3 =>
          rw [h3] at h
          dsimp only [first0] at h
          cases h4 : propCapture "version.release".data props with
          | none => rw [h4] at h; dsimp only [first0] at h; exact Except.noConfusion h
          | some v4 =>
            simp [h1, h2, h3, h4]

/-- C1 (counterexample): the decoder is not total — on the present output
`"11abc"` (length ≥ 2, first line of length ≥ 3 containing no `=`),
`get_properties` raises `IndexError` at `lines[0].split("=")[1]` instead of
degrading to unset fields. -/
theorem C1_counterexample :
    get_properties (some "11abc".data) = Except.error PyError.indexError := by
  rfl

/-- C1 (amended): for every present RawOutput that is shorter than 2
characters or whose wake-lock parsing stage succeeds (the stripped output
has a first line, and that line is shorter than 3 characters or yields an
integer after its first `=`), `get_properties` returns a complete 8-tuple
and never raises; outside that condition the wake-lock stage can raise. -/
theorem C1_amended_thm (o : List Char) (h : o.length < 2 ∨ wakeLockStageOk o) :
    ∃ p, get_properties (some o) = Except.ok p := by
  match o with
  | [] => exact ⟨_, rfl⟩
  | [c0] => exact ⟨_, rfl⟩
  | c0 :: c1 :: rest =>
    have hw : wakeLockStageOk (c0 :: c1 :: rest) := by
      rcases h with h | h
      · simp only [List.length_cons] at h; omega
      · exact h
    show ∃ p, gpTail (c0 == '1') (c1 == '1')
      (pySplitlines (pyStrip (c0 :: c1 :: rest))) = Except.ok p
    unfold wakeLockStageOk at hw
    cases hl : pySplitlines (pyStrip (c0 :: c1 :: rest)) with
    | nil => rw [hl] at hw; exact absurd hw (by simp)
    | cons l0 lrest =>
      rw [hl] at hw
      dsimp only at hw
      unfold gpTail
      by_cases h3 : l0.length < 3
      · simp only [h3, if_true]
        exact ⟨_, rfl⟩
      · simp only [h3, if_false]
        rcases hw with hw | ⟨seg, hseg, hint⟩
        · exact absurd hw h3
        · rw [hseg]
          dsimp only
          cases hi : pyInt seg with
          | none => rw [hi] at hint; cases hint
          | some w =>
            dsimp only
            exact gpApp_ok _ _ _ _

/-- C1 (witness): the amended theorem applied at the concrete one-character
output `"1"`. -/
theorem C1_witness :
    (("1".data : List Char).length < 2 ∨ wakeLockStageOk "1".data) ∧
      ∃ p, get_properties (some "1".data) = Except.ok p :=
  ⟨Or.inl (by decide), C1_amended_thm "1".data (Or.inl (by decide))⟩

/-- C2 (counterexample): on the reachable snapshot decoded from
`sampleIdle` — `screen_on` true, `awake` true, `wake_lock_size` 1 and
`audio_state` set to Idle — the resolver returns Idle (the set `audio_state`
is truthy and passed through), not Playing as the claim's precedence ("else
if `wakeLockSize == 1` → Playing") requires. -/
theorem C2_counterexample :
    get_properties (some sampleIdle) = Except.ok propsIdle ∧
      propsIdle.screen_on = some true ∧ propsIdle.awake = some true ∧
      propsIdle.wake_lock_size = some 1 ∧
      propsIdle.audio_state = some AudioState.idle ∧
      updateState propsIdle.screen_on propsIdle.awake propsIdle.wake_lock_size
        propsIdle.audio_state = TVState.idle ∧
      TVState.idle ≠ TVState.playing :=
  ⟨by rfl, rfl, rfl, rfl, rfl, by rfl, by decide⟩

/-- C2 (amended): the resolver's precedence with the pass-through rule as
the code has it — `screenOn` not true (false or unset) gives Off; otherwise
a set `audioState` (Playing, Paused or Idle alike) is the result directly;
otherwise `awake` not true gives Idle, a `wakeLockSize` of 1 gives Playing,
and anything else gives Paused. -/
theorem C2_amended_thm (so aw : Option Bool) (wls : Option Int)
    (au : Option AudioState) :
    (so ≠ some true → updateState so aw wls au = TVState.off) ∧
    (∀ a, so = some true → au = some a → updateState so aw wls au = a.toTV) ∧
    (so = some true → au = none → aw ≠ some true →
      updateState so aw wls au = TVState.idle) ∧
    (so = some true → au = none → aw = some true → wls = some 1 →
      updateState so aw wls au = TVState.playing) ∧
    (so = some true → au = none → aw = some true → wls ≠ some 1 →
      updateState so aw wls au = TVState.paused) := by
  refine ⟨?_, ?_, ?_, ?_, ?_⟩ <;> intros <;> subst_vars <;> simp_all [updateState]

/-- C2 (witness): the amended theorem's Playing rule at concrete inputs. -/
theorem C2_witness :
    updateState (some true) (some true) (some 1) none = TVState.playing :=
  (C2_amended_thm (some true) (some true) (some 1) none).2.2.2.1 rfl rfl rfl rfl

/-- C3 (counterexample): on the one-character output `"1"` the decoder sets
`awake` to false and `wake_lock_size` to the `-1` sentinel — neither is
unset, contradicting the claim that `awake` and all later fields are unset. -/
theorem C3_counterexample :
    (get_properties (some "1".data)).map (fun p => (p.awake, p.wake_lock_size)) =
      Except.ok (some false, some (-1)) := by
  rfl

/-- C3 (amended): for every RawOutput shorter than 2 characters,
`get_properties` returns without any out-of-range failure the snapshot with
`screen_on` decoded from the first character when there is one, `awake` set
to false, `wake_lock_size` set to the `-1` sentinel, and the remaining five
fields unset. -/
theorem C3_amended_thm (o : List Char) (h : o.length < 2) :
    get_properties (some o) =
      Except.ok ⟨some (o.headD '0' == '1'), some false, some (-1),
        none, none, none, none, none⟩ := by
  match o with
  | [] => rfl
  | [c0] => rfl
  | c0 :: c1 :: rest => simp only [List.length_cons] at h; omega

/-- C3 (witness): the amended theorem at the concrete output `"1"`. -/
theorem C3_witness :
    (("1".data : List Char).length < 2) ∧
      get_properties (some "1".data) =
        Except.ok ⟨some ("1".data.headD '0' == '1'), some false, some (-1),
          none, none, none, none, none⟩ :=
  ⟨by decide, C3_amended_thm "1".data (by decide)⟩

/-- C4: an absent RawOutput decodes to all 8 fields unset, and the empty
RawOutput decodes to `screen_on = false`, `awake = false`,
`wake_lock_size = -1` with the remaining five fields unset. -/
theorem C4_thm :
    get_properties none =
        Except.ok ⟨none, none, none, none, none, none, none, none⟩ ∧
      get_properties (some "".data) =
        Except.ok ⟨some false, some false, some (-1),
          none, none, none, none, none⟩ :=
  ⟨rfl, rfl⟩

/-- C5 (counterexample): on the present output `sampleNoApp` the window line
does not match, so `current_app` is unset, yet decoding continues and sets
the later field `audio_state` — the strict left-to-right chain
"a field is set only when all fields before it are set" fails. -/
theorem C5_counterexample :
    (get_properties (some sampleNoApp)).map
        (fun p => (p.current_app, p.audio_state)) =
      Except.ok (none, some AudioState.playing) := by
  rfl

/-- C5 (amended): the stage order that does hold — for every present
RawOutput decoded without an exception, `awake` set implies `screen_on` set,
`wake_lock_size` set implies `awake` set, `current_app` or `audio_state` set
implies `wake_lock_size` set, `device` or `muted` set implies `audio_state`
set, and `volume` set implies `device` set; `current_app` alone may be unset
(window-pattern mismatch) with later fields still set, and `muted` may be
set with `device` unset. -/
theorem C5_amended_thm (o : List Char) (p : Props)
    (h : get_properties (some o) = Except.ok p) :
    (p.awake ≠ none → p.screen_on ≠ none) ∧
    (p.wake_lock_size ≠ none → p.awake ≠ none) ∧
    (p.current_app ≠ none → p.wake_lock_size ≠ none) ∧
    (p.audio_state ≠ none → p.wake_lock_size ≠ none) ∧
    (p.device ≠ none → p.audio_state ≠ none) ∧
    (p.muted ≠ none → p.audio_state ≠ none) ∧
    (p.volume ≠ none → p.device ≠ none) := by
  obtain ⟨h1, h2, h3, h4, h5, h6⟩ := gp_shape o p h
  exact ⟨fun _ => h1, fun _ => h2, fun _ => h3, fun _ => h3, h4, h5, h6⟩

/-- C5 (witness): the amended theorem at the fully decoded `sampleVol15`,
with the `volume`-implies-`device` implication discharged concretely. -/
theorem C5_witness :
    get_properties (some sampleVol15) = Except.ok propsVol15 ∧
      propsVol15.device ≠ none :=
  ⟨by rfl, (C5_amended_thm sampleVol15 propsVol15 (by rfl)).2.2.2.2.2.2 (by decide)⟩

/-- C6: the volume rescaling — the decoder reports
`round(1 / 15 * raw, 2)`, equal to `round(raw / 15, 2)`, for the extracted
raw integer; raw 15 gives 1.0, raw 8 gives 0.53, raw 0 gives 0.0, both for
`scaleVolume` itself and end to end through `get_properties`. -/
theorem C6_thm :
    (∀ raw : ℕ, scaleVolume raw = pyRound2 ((raw : ℚ) / 15)) ∧
    scaleVolume 15 = 1 ∧ scaleVolume 8 = 53 / 100 ∧ scaleVolume 0 = 0 ∧
    (get_properties (some sampleVol15)).map Props.volume = Except.ok (some 1) ∧
    (get_properties (some sampleVol8)).map Props.volume =
      Except.ok (some (53 / 100)) ∧
    (get_properties (some sampleVol0)).map Props.volume = Except.ok (some 0) := by
  have hb : (53 / 100 : ℚ) = Rat.divInt 53 100 := by
    rw [Rat.divInt_eq_div]
    norm_num
  refine ⟨?_, by decide, ?_, by decide, by rfl, ?_, by rfl⟩
  · intro raw
    unfold scaleVolume
    congr 1
    rw [Rat.divInt_eq_div]
    norm_num
  · rw [hb]
    decide
  · rw [hb]
    rfl

/-- C7: absence of an audio sub-field is reported as unset, never defaulted —
no `Muted:` marker in the block means `muted` is unset (not false), a
captured token yields true exactly when it is `true`; a missing device or a
missing volume line means `volume` is unset (never 0); concretely,
`sampleMutedOnly` yields an explicit `muted = false` while `sampleNoVol`
(block present, no `Muted:` marker, no volume line) yields `muted` and
`volume` unset. -/
theorem C7_thm :
    (∀ sb : List Char,
      (containsSub "Muted:".data sb = false → (streamFields sb).2.1 = none) ∧
      (∀ t, captureToNonWord "Muted: ".data sb = some t →
        (streamFields sb).2.1 = some (t == "true".data)) ∧
      (captureToNonWord "Devices: ".data sb = none →
        (streamFields sb).1 = none ∧ (streamFields sb).2.2 = none) ∧
      (∀ d, captureToNonWord "Devices: ".data sb = some d →
        findVolume (d ++ "): ".data) sb = none → (streamFields sb).2.2 = none)) ∧
    (get_properties (some sampleMutedOnly)).map Props.muted =
      Except.ok (some false) ∧
    (get_properties (some sampleNoVol)).map
        (fun p => (p.device, p.muted, p.volume)) =
      Except.ok (some "SPEAKER".data, none, none) := by
  refine ⟨?_, by rfl, by rfl⟩
  intro sb
  refine ⟨muted_marker_absent sb, ?_, streamFields_device_none sb, ?_⟩
  · intro t ht
    rw [streamFields_muted, ht]
    rfl
  · intro d hd hv
    rw [(streamFields_device_some sb d hd).2, hv]
    rfl

/-- C7 (witness): the device-absent implication discharged at the concrete
block `"q"`. -/
theorem C7_witness :
    captureToNonWord "Devices: ".data "q".data = none ∧
      (streamFields "q".data).1 = none ∧ (streamFields "q".data).2.2 = none :=
  ⟨rfl, (C7_thm.1 "q".data).2.2.1 rfl⟩

/-- C8: for every audio-dump text reached by the decoder, `audio_state` is
the independent substring scan — Playing when `started` occurs anywhere,
else Paused when `paused` occurs, else Idle — and when no stream block is
found the audio state is still set by that scan while `device`, `muted` and
`volume` are all unset; concretely `samplePaused` decodes end to end with
`audio_state` Paused and the three block fields unset. -/
theorem C8_thm :
    (∀ a : List Char,
      (decodeAudio a).audio_state =
        (if containsSub "started".data a then AudioState.playing
         else if containsSub "paused".data a then AudioState.paused
         else AudioState.idle) ∧
      (extractBlock a = none →
        (decodeAudio a).device = none ∧ (decodeAudio a).muted = none ∧
          (decodeAudio a).volume = none)) ∧
    (get_properties (some samplePaused)).map
        (fun p => (p.audio_state, p.device, p.muted, p.volume)) =
      Except.ok (some AudioState.paused, none, none, none) :=
  ⟨fun a => ⟨decodeAudio_state a, decodeAudio_noblock a⟩, by rfl⟩

/-- C8 (witness): the no-block implication discharged at the concrete audio
dump `"paused"`. -/
theorem C8_witness :
    extractBlock "paused".data = none ∧
      (decodeAudio "paused".data).device = none :=
  ⟨rfl, ((C8_thm.1 "paused".data).2 rfl).1⟩

/-- C9: the static-property extraction fails hard — whenever the
`serialno`, `manufacturer`, `product.model` or `version.release` pattern
matches zero times in the property dump, `get_device_properties` returns no
record at all (it raises, modelled as `Except.error`); concretely a dump
with every key but `serialno` produces `IndexError`, not a partial record. -/
theorem C9_thm :
    (∀ props wifi : List Char, ∀ r : DeviceProperties,
      propCapture "serialno".data props = none →
        get_device_properties props wifi ≠ Except.ok r) ∧
    (∀ props wifi r, propCapture "manufacturer".data props = none →
        get_device_properties props wifi ≠ Except.ok r) ∧
    (∀ props wifi r, propCapture "product.model".data props = none →
        get_device_properties props wifi ≠ Except.ok r) ∧
    (∀ props wifi r, propCapture "version.release".data props = none →
        get_device_properties props wifi ≠ Except.ok r) ∧
    get_device_properties sampleNoSerial "".data = Except.error PyError.indexError := by
  refine ⟨?_, ?_, ?_, ?_, by rfl⟩ <;>
    exact fun props wifi r h hok => by
      obtain ⟨h1, h2, h3, h4⟩ := gdp_ok props wifi r hok
      simp_all

/-- C9 (witness): the serialno implication discharged at the concrete dump
`sampleNoSerial`. -/
theorem C9_witness :
    propCapture "serialno".data sampleNoSerial = none ∧
      get_device_properties sampleNoSerial "".data ≠
        Except.ok ⟨"a".data, "s".data, "m".data, "p".data, "v".data⟩ :=
  ⟨by rfl, C9_thm.1 sampleNoSerial "".data _ (by rfl)⟩

/-- C10: in every snapshot returned by `get_properties`, a set `volume`
implies a set `device` (the volume is only computed against an extracted
device name), while `muted` can be set even when `device` is unset —
concretely `sampleMutedOnly` decodes to `muted = some false` with `device`
unset. -/
theorem C10_thm :
    (∀ o : List Char, ∀ p : Props, get_properties (some o) = Except.ok p →
      p.volume ≠ none → p.device ≠ none) ∧
    (get_properties (some sampleMutedOnly)).map (fun p => (p.muted, p.device)) =
      Except.ok (some false, none) :=
  ⟨fun o p h => (gp_shape o p h).2.2.2.2.2, by rfl⟩

/-- C10 (witness): the implication discharged at the fully decoded
`sampleVol8`, whose `volume` is set. -/
theorem C10_witness :
    get_properties (some sampleVol8) = Except.ok propsVol8 ∧
      propsVol8.device ≠ none :=
  ⟨by rfl, C10_thm.1 sampleVol8 propsVol8 (by rfl) (by decide)⟩
